import Mathlib

/-!
Verification development for the GPU-fleet telemetry simulator and its
broadcast engine (backend of the codeRedAstra repository).

The JavaScript sources are shallowly embedded: JS numbers are modelled as
rationals, Math.random is modelled as an injected stream of draws
(a function from a draw index to a rational), and the mutable module-level
state (spike state machine, chart history) is threaded explicitly.
-/

namespace CodeRed

/-! ## JS numeric primitives -/

/-- Math.floor on a rational, returned as a rational. -/
def jsFloor (q : ℚ) : ℚ := (⌊q⌋ : ℚ)

/-- Math.round on a rational: round half up, as JS Math.round does. -/
def jsRound (q : ℚ) : ℚ := (⌊q + 1/2⌋ : ℚ)

/-- Number.prototype.toFixed(2) followed by parseFloat, for the non-negative
values this code applies it to: round to 2 decimal places. -/
def toFixed2 (q : ℚ) : ℚ := (⌊q * 100 + 1/2⌋ : ℚ) / 100

/-- Number.prototype.toFixed(1) followed by parseFloat, for the non-negative
values this code applies it to: round to 1 decimal place. -/
def toFixed1 (q : ℚ) : ℚ := (⌊q * 10 + 1/2⌋ : ℚ) / 10

/-! ## JS string primitive: String.prototype.includes -/

/-- Whether the second list is an initial segment of the first. -/
def leadMatch : List Char → List Char → Bool
  | _, [] => true
  | [], _ :: _ => false
  | a :: as, b :: bs => a == b && leadMatch as bs

/-- Whether the needle occurs as a contiguous sublist of the haystack. -/
def containsSub : List Char → List Char → Bool
  | hay, [] => (fun _ => true) hay
  | [], _ :: _ => false
  | a :: t, b :: bs => leadMatch (a :: t) (b :: bs) || containsSub t (b :: bs)

/-- JS String.prototype.includes. -/
def strIncludes (hay needle : String) : Bool := containsSub hay.data needle.data

/-! ## Load-spike state machine (backend/src/stateMachine.js)

The module state is the record currentState plus the countdown nextSpikeIn
and the tick counter; all three are threaded through explicitly as a
MachineState value.  Each call to updateStateMachine performs at most one
Math.random draw, passed in as the argument r. -/

/-- The currentState record of stateMachine.js: status is "normal" or
"spike", loadMultiplier 1.0 means no spike, region is "global" or a
region key, duration is the seconds remaining in the current spike. -/
structure ClusterState where
  status : String
  loadMultiplier : ℚ
  region : String
  duration : ℤ
deriving Repr, DecidableEq

/-- One entry of the spikeProfiles table of stateMachine.js. -/
structure SpikeProfile where
  region : String
  multiplier : ℚ
  duration : ℤ
deriving Repr, DecidableEq

/-- The fixed spikeProfiles table. -/
def spikeProfiles : List SpikeProfile :=
  [⟨"global", 3/2, 30⟩, ⟨"houston", 9/5, 20⟩, ⟨"london", 7/5, 25⟩,
   ⟨"norway", 8/5, 15⟩, ⟨"calgary", 17/10, 18⟩]

/-- Full mutable module state of stateMachine.js. -/
structure MachineState where
  current : ClusterState
  nextSpikeIn : ℚ
  tickCounter : ℕ
deriving Repr, DecidableEq

/-- The initial value of currentState. -/
def initialClusterState : ClusterState := ⟨"normal", 1, "global", 0⟩

/-- Module state at load time; the initial countdown (drawn at module load
from the range 120-300) is the parameter c. -/
def initMachine (c : ℚ) : MachineState := ⟨initialClusterState, c, 0⟩

/-- getClusterState returns a copy of currentState. -/
def getClusterState (m : MachineState) : ClusterState := m.current

/-- updateStateMachine of stateMachine.js.  The draw r stands for the single
Math.random() call the executed branch makes (reseeding the countdown when a
spike ends, or choosing the profile index when a spike starts); branches that
draw nothing ignore r.  The getD fallback is never taken for draws in [0,1),
since the floor of r * 5 is then a valid index into the 5-entry table. -/
def updateStateMachine (r : ℚ) (m : MachineState) : MachineState :=
  let m1 : MachineState := { m with tickCounter := m.tickCounter + 1 }
  if m1.current.status = "spike" then
    let d := m1.current.duration - 1
    if d ≤ 0 then
      { m1 with
          current := ⟨"normal", 1, "global", d⟩,
          nextSpikeIn := r * 180 + 120 }
    else
      { m1 with current := { m1.current with duration := d } }
  else
    let n := m1.nextSpikeIn - 1
    if n ≤ 0 then
      let spike := (spikeProfiles.get? (⌊r * 5⌋).toNat).getD ⟨"global", 3/2, 30⟩
      { m1 with
          nextSpikeIn := n,
          current := ⟨"spike", spike.multiplier, spike.region, spike.duration⟩ }
    else
      { m1 with nextSpikeIn := n }

/-- simulateLoadSpike of stateMachine.js: the manual trigger forcing an
immediate global spike with multiplier 1.5 for 10 seconds. -/
def simulateLoadSpike (m : MachineState) : MachineState :=
  { m with current := ⟨"spike", 3/2, "global", 10⟩ }

/-- An operation on the state machine module: a timer tick (with its
Math.random draw) or a manual trigger. -/
inductive Op where
  | tick (r : ℚ)
  | trigger
deriving Repr

/-- Apply one operation. -/
def applyOp (m : MachineState) (o : Op) : MachineState :=
  match o with
  | Op.tick r => updateStateMachine r m
  | Op.trigger => simulateLoadSpike m

/-- Run a sequence of operations, oldest first. -/
def runOps (m : MachineState) (os : List Op) : MachineState := os.foldl applyOp m

/-- Run j consecutive ticks; the tick numbered i consumes the draw rs i. -/
def runTicks (rs : ℕ → ℚ) (m : MachineState) : ℕ → MachineState
  | 0 => m
  | j + 1 => updateStateMachine (rs j) (runTicks rs m j)

/-! ## Telemetry synthesizer (backend/src/simulator.js)

Math.random is modelled as a stream rand of draws indexed by a counter that
is threaded through node generation exactly in source call order: per node,
draw k is the raw GPU draw, k+1 the over-cooling draw, k+2 the
optimized-cooling branch draw, then (only in the optimized branch) the
cooling offset draw, then the temperature draw, then the offline draw. -/

/-- One generated GPU node, as pushed onto the nodes array. -/
structure SimNode where
  id : ℕ
  label : String
  clusterName : String
  gpuLoad : ℚ
  cooling : ℚ
  temperature : ℚ
  powerUsage : ℚ
  status : String
deriving Repr, DecidableEq

/-- One entry of the clusterProfiles table in generateCluster. -/
structure ClusterProfile where
  name : String
  gpuBias : ℚ
  location : String
  workload : String
deriving Repr, DecidableEq

/-- The clusterProfiles table. -/
def clusterProfiles : List ClusterProfile :=
  [⟨"A", 20, "Houston", "Training"⟩,
   ⟨"B", -15, "Calgary", "Inference"⟩,
   ⟨"C", 5, "Stavanger", "Training"⟩,
   ⟨"D", -20, "Doha", "Development"⟩,
   ⟨"E", 15, "Perth", "Seismic Analysis"⟩,
   ⟨"F", -10, "Jakarta", "Field Data"⟩,
   ⟨"G", 10, "Anchorage", "Research"⟩,
   ⟨"H", 0, "Beijing", "AI Models"⟩]

/-- One entry of the globalLocations table. -/
structure GlobalSite where
  name : String
  lat : ℚ
  lng : ℚ
deriving Repr, DecidableEq

/-- The globalLocations table. -/
def globalLocations : List GlobalSite :=
  [⟨"Houston, USA", 297604/10000, -953698/10000⟩,
   ⟨"Calgary, Canada", 510447/10000, -1140719/10000⟩,
   ⟨"Stavanger, Norway", 589699756/10000000, 57331073/10000000⟩,
   ⟨"Doha, Qatar", 252854/10000, 51531/1000⟩,
   ⟨"Perth, Australia", -319505/10000, 1158605/10000⟩,
   ⟨"Jakarta, Indonesia", -62088/10000, 1068456/10000⟩,
   ⟨"Anchorage, Alaska", 612181/10000, -1499003/10000⟩,
   ⟨"Beijing, China", 399042/10000, 1164074/10000⟩]

/-- The dataCenters lookup, with the "Unknown Facility" fallback applied. -/
def dataCenterOf (siteName : String) : String :=
  if siteName = "Houston, USA" then "North America Data Center"
  else if siteName = "Calgary, Canada" then "Canadian AI Hub"
  else if siteName = "Stavanger, Norway" then "Nordic Energy Cluster"
  else if siteName = "Doha, Qatar" then "MENA Operations Hub"
  else if siteName = "Perth, Australia" then "Asia-Pacific Cluster"
  else if siteName = "Jakarta, Indonesia" then "Indonesia Field Systems"
  else if siteName = "Anchorage, Alaska" then "Arctic Compute Node"
  else if siteName = "Beijing, China" then "China AI Operations"
  else "Unknown Facility"

/-- Tail of the per-node computation, shared by the two cooling branches of
generateCluster: clamp the cooling value, compute temperature, power and the
offline draw, and zero every metric when the node samples offline.  The
draws consumed here are rand k2 (temperature) and rand (k2+1) (offline). -/
def genNodeFinish (rand : ℕ → ℚ) (k2 : ℕ) (nodeId : ℕ) (label cname : String)
    (gpuLoad rawCooling : ℚ) : SimNode × ℕ :=
  let nodeCooling := min 100 (max 0 rawCooling)
  let temperature := 20 + gpuLoad * (1/5) + (rand k2 * 4 - 2)
  let powerUsage := toFixed2 (3/2 + gpuLoad / 100 * (9/2) + nodeCooling / 100 * (4/5))
  let nstatus := if rand (k2+1) < 1/50 then "offline" else "online"
  (⟨nodeId, label, cname,
    if nstatus = "offline" then 0 else gpuLoad,
    if nstatus = "offline" then 0 else nodeCooling,
    if nstatus = "offline" then 0 else temperature,
    if nstatus = "offline" then 0 else powerUsage,
    nstatus⟩, k2 + 2)

/-- One iteration of the 8-node loop body of generateCluster.  In the source
the traditional over-cooling penalty (draw k+1) is computed before the
branch draw k+2 but only used in the lagging branch; both branches then fall
through to the shared tail genNodeFinish. -/
def genNode (rand : ℕ → ℚ) (k : ℕ) (bias : ℚ) (isAff : Bool) (mult : ℚ)
    (nodeId : ℕ) (label cname : String) : SimNode × ℕ :=
  let rawGpu := 50 + bias + (rand k * 30 - 15)
  let adjustedGpu := if isAff then rawGpu * mult else rawGpu
  let gpuLoad := min 100 (max 0 (jsFloor adjustedGpu))
  if rand (k+2) > 3/10 then
    genNodeFinish rand (k+4) nodeId label cname gpuLoad
      (gpuLoad + 5 + jsFloor (rand (k+3) * 10 - 5))
  else
    genNodeFinish rand (k+3) nodeId label cname gpuLoad
      (gpuLoad + (if rand (k+1) > 7/10 then 25 else 15))

/-- The nodes loop of generateCluster, generating the nodes numbered
i, i+1, ... while fuel lasts, threading the draw counter. -/
def genNodesFrom (rand : ℕ → ℚ) (bias : ℚ) (isAff : Bool) (mult : ℚ)
    (clusterIndex : ℕ) (cname : String) : ℕ → ℕ → ℕ → List SimNode × ℕ
  | _, 0, k => ([], k)
  | i, fuel + 1, k =>
    let p := genNode rand k bias isAff mult (clusterIndex * 8 + i + 1)
      (cname ++ toString (i + 1)) cname
    let rest := genNodesFrom rand bias isAff mult clusterIndex cname (i + 1) fuel p.2
    (p.1 :: rest.1, rest.2)

/-- The regional temperature bias of generateCluster, keyed on the site name. -/
def regionalTempBias (siteName : String) : ℚ :=
  if strIncludes siteName ("Norway") then -3
  else if strIncludes siteName ("Canada") then -2
  else if strIncludes siteName ("UK") then 0
  else if strIncludes siteName ("Houston") then 2
  else 0

/-- One generated cluster record. -/
structure Cluster where
  id : String
  name : String
  location : String
  workload : String
  status : String
  time : String
  gpuLoad : ℚ
  cooling : ℚ
  temperature : ℚ
  powerUsage : ℚ
  nodeCount : ℕ
  activeNodes : ℕ
  site : String
  dataCenter : String
  lat : ℚ
  lng : ℚ
  nodes : List SimNode
  spikeActive : Bool
deriving Repr, DecidableEq

/-- The profile selected for a cluster index: clusterProfiles[clusterIndex]
with the source fallback || clusterProfiles[0]. -/
def profileAt (clusterIndex : ℕ) : ClusterProfile :=
  (clusterProfiles.get? clusterIndex).getD ⟨"A", 20, "Houston", "Training"⟩

/-- The global site assigned to a cluster index (index modulo table size;
the getD fallback is never taken since the index is reduced modulo the
length). -/
def siteAt (clusterIndex : ℕ) : GlobalSite :=
  (globalLocations.get? (clusterIndex % globalLocations.length)).getD
    ⟨"Houston, USA", 297604/10000, -953698/10000⟩

/-- The spike-affectedness test of generateCluster: global region, or the
site name or profile location contains the region, case-insensitively. -/
def isAffectedFor (state : ClusterState) (clusterIndex : ℕ) : Bool :=
  (state.region == "global")
    || strIncludes (siteAt clusterIndex).name.toLower state.region.toLower
    || strIncludes (profileAt clusterIndex).location.toLower state.region.toLower

/-- generateCluster of simulator.js.  The state argument is the value read
via getClusterState; now is the formatted wall-clock time string.  The
clusterName parameter of the source is unused there (the profile name is
used instead) and is omitted; the coolingState table is read into a dead
local in the source and is omitted as well. -/
def generateCluster (rand : ℕ → ℚ) (now : String) (state : ClusterState)
    (clusterIndex : ℕ) (k : ℕ) : Cluster × ℕ :=
  let profile := profileAt clusterIndex
  let globalSite := siteAt clusterIndex
  let dataCenterName := dataCenterOf globalSite.name
  let isAffected := isAffectedFor state clusterIndex
  let r := genNodesFrom rand profile.gpuBias isAffected state.loadMultiplier
    clusterIndex profile.name 0 8 k
  let nodes := r.1
  let totalGpu := (nodes.map SimNode.gpuLoad).sum
  let totalCooling := (nodes.map SimNode.cooling).sum
  let totalPower := (nodes.map SimNode.powerUsage).sum
  let avgGpu := jsRound (totalGpu / 8)
  let avgCooling := jsRound (totalCooling / 8)
  let clusterStatus :=
    if nodes.all (fun n => n.status == "offline") then "offline" else "online"
  (⟨"cluster_" ++ profile.name,
    "Cluster " ++ profile.name,
    profile.location,
    profile.workload,
    clusterStatus,
    now,
    avgGpu,
    avgCooling,
    20 + avgGpu * (1/5) + regionalTempBias globalSite.name,
    totalPower,
    8,
    (nodes.filter (fun n => n.status == "online")).length,
    globalSite.name,
    dataCenterName,
    globalSite.lat,
    globalSite.lng,
    nodes,
    isAffected && (state.status == "spike")⟩, r.2)

/-- The 8-cluster loop of generateTelemetry, threading the draw counter. -/
def genClusters (rand : ℕ → ℚ) (now : String) (state : ClusterState) :
    ℕ → ℕ → ℕ → List Cluster × ℕ
  | _, 0, k => ([], k)
  | i, fuel + 1, k =>
    let p := generateCluster rand now state i k
    let rest := genClusters rand now state (i + 1) fuel p.2
    (p.1 :: rest.1, rest.2)

/-- generateTelemetry of simulator.js: one fleet snapshot of 8 clusters of
8 nodes each, consuming draws from rand starting at index 0. -/
def generateTelemetry (rand : ℕ → ℚ) (now : String) (state : ClusterState) :
    List Cluster :=
  (genClusters rand now state 0 8 0).1

/-! ## Broadcast engine (backend/src/webSocket.js) -/

/-- One element of the clusters array of the telemetry payload. -/
structure FrontCluster where
  name : String
  status : String
  gpu : ℚ
  cooling : ℚ
  power : ℚ
deriving Repr, DecidableEq

/-- The per-cluster body of transformClustersForFrontend. -/
def transformCluster (c : Cluster) : FrontCluster :=
  let status :=
    if c.status = "offline" then "idle"
    else
      let avgGpuLoad := c.gpuLoad
      let avgCooling := c.cooling
      let coolingEfficiency := avgCooling - avgGpuLoad
      if avgGpuLoad > 70 then "active"
      else if avgGpuLoad > 40 then
        if |coolingEfficiency| > 15 then "optimizing" else "active"
      else
        if avgCooling > avgGpuLoad + 20 then "optimizing" else "idle"
  ⟨c.name, status, c.gpuLoad, c.cooling, toFixed2 c.powerUsage⟩

/-- transformClustersForFrontend of webSocket.js. -/
def transformClustersForFrontend (clusters : List Cluster) : List FrontCluster :=
  clusters.map transformCluster

/-- One element of the nodes array of the telemetry payload. -/
structure FrontNode where
  id : ℕ
  label : String
  clusterName : String
  state : String
  gpuLoad : ℚ
  temperature : ℚ
  cooling : ℚ
  powerUsage : ℚ
  status : String
deriving Repr, DecidableEq

/-- The per-node body of the generateNodes loop. -/
def nodeView (n : SimNode) : FrontNode :=
  let state :=
    if n.status = "offline" then "idle"
    else
      if n.gpuLoad > 75 then "hot"
      else if n.gpuLoad > 30 then "active"
      else "idle"
  ⟨n.id, n.label, n.clusterName, state, n.gpuLoad, toFixed1 n.temperature,
   n.cooling, n.powerUsage, n.status⟩

/-- generateNodes of webSocket.js: flatten every node of every cluster into
the GPU-grid view. -/
def generateNodes (clusters : List Cluster) : List FrontNode :=
  (clusters.map (fun c => c.nodes.map nodeView)).flatten

/-- The chartHistory module state of webSocket.js. -/
structure ChartHistory where
  labels : List String
  gpuData : List ℚ
  coolingData : List ℚ
  energyData : List ℚ
deriving Repr, DecidableEq

/-- chartHistory at module load: four empty arrays. -/
def emptyChartHistory : ChartHistory := ⟨[], [], [], []⟩

/-- The node-level fleet average GPU load computed inside updateChartData,
with its divide-by-zero fallback to 0. -/
def chartAvgGpu (clusters : List Cluster) : ℚ :=
  let totalNodes := (clusters.map (fun c => c.nodes.length)).sum
  if 0 < totalNodes then
    ((clusters.map (fun c => (c.nodes.map SimNode.gpuLoad).sum)).sum) / totalNodes
  else 0

/-- The node-level fleet average cooling computed inside updateChartData,
with its divide-by-zero fallback to 0. -/
def chartAvgCooling (clusters : List Cluster) : ℚ :=
  let totalNodes := (clusters.map (fun c => c.nodes.length)).sum
  if 0 < totalNodes then
    ((clusters.map (fun c => (c.nodes.map SimNode.cooling).sum)).sum) / totalNodes
  else 0

/-- The GPU data point pushed by updateChartData (toFixed(1) of the average). -/
def chartGpuPoint (clusters : List Cluster) : ℚ := toFixed1 (chartAvgGpu clusters)

/-- The cooling data point pushed by updateChartData. -/
def chartCoolingPoint (clusters : List Cluster) : ℚ :=
  toFixed1 (chartAvgCooling clusters)

/-- The energy-savings data point pushed by updateChartData: the bounded
chart heuristic 32 + (1 - load/cooling) * 15 with the cooling-zero fallback
ratio of 1. -/
def chartEnergyPoint (clusters : List Cluster) : ℚ :=
  let efficiencyRatio :=
    if chartAvgCooling clusters > 0 then chartAvgGpu clusters / chartAvgCooling clusters
    else 1
  toFixed1 (32 + (1 - efficiencyRatio) * 15)

/-- updateChartData of webSocket.js, acting on the chartHistory state: shift
the oldest entry off every series when the label buffer already holds more
than 20 points, then push the new point computed from this snapshot. -/
def updateChartData (ch : ChartHistory) (now : String) (clusters : List Cluster) :
    ChartHistory :=
  let ch1 :=
    if 20 < ch.labels.length then
      ChartHistory.mk ch.labels.tail ch.gpuData.tail ch.coolingData.tail
        ch.energyData.tail
    else ch
  ⟨ch1.labels ++ [now],
   ch1.gpuData ++ [chartGpuPoint clusters],
   ch1.coolingData ++ [chartCoolingPoint clusters],
   ch1.energyData ++ [chartEnergyPoint clusters]⟩

/-- Fold a sequence of updateChartData calls (each with its time label and
fleet snapshot) over the initial empty chartHistory. -/
def runChart (inputs : List (String × List Cluster)) : ChartHistory :=
  inputs.foldl (fun ch x => updateChartData ch x.1 x.2) emptyChartHistory

/-- The stats record produced by calculateStats. -/
structure Stats where
  energySavings : ℚ
  co2OffsetKg : ℚ
  powerDrawMW : ℚ
  coolingPUE : ℚ
deriving Repr, DecidableEq

/-- The fixed baseline power constant of calculateStats, in MW. -/
def baselinePower : ℚ := 277/100

/-- calculateStats of webSocket.js. -/
def calculateStats (clusters : List Cluster) : Stats :=
  let currentPowerDraw := (clusters.map Cluster.powerUsage).sum / 1000
  let energySavings := (baselinePower - currentPowerDraw) / baselinePower * 100
  let totalPower := (clusters.map (fun c => c.powerUsage + c.cooling)).sum
  let itPower := (clusters.map Cluster.powerUsage).sum
  let coolingPUE := if itPower > 0 then totalPower / itPower else 1
  let co2OffsetKg := jsRound (currentPowerDraw * 278)
  ⟨energySavings, co2OffsetKg, currentPowerDraw, coolingPUE⟩

/-! ## Mute handling and the cross-session mute broadcast

webSocket.js declares broadcastMuteState at module top level; its body reads
the free identifier wss.  Identifier resolution is modelled explicitly: the
scope chain of a module-level function is the list of module-level bindings
of webSocket.js (its imports and its own declarations).  The wss that
server.js creates is a const local to the server.js module and is passed to
startTelemetry as a parameter, so no binding named wss exists in the scope
chain of broadcastMuteState; dereferencing it throws a ReferenceError. -/

/-- The module-level bindings of webSocket.js: the ten imported names, the
chartHistory variable and the five declared functions. -/
def webSocketModuleScope : List String :=
  ["generateTelemetry", "getClusterState", "simulateLoadSpike", "appendLog",
   "analyzeClusterData", "textToSpeech", "askQuestion",
   "muteAssistant", "unmuteAssistant", "getMuteState",
   "transformClustersForFrontend", "generateNodes", "chartHistory",
   "updateChartData", "calculateStats", "startTelemetry", "broadcastMuteState"]

/-- Resolve a free identifier against a scope chain: a miss is a JS
ReferenceError. -/
def lookupIdent (scope : List String) (name : String) : Except String Unit :=
  if name ∈ scope then Except.ok () else
    Except.error ("ReferenceError: " ++ name ++ " is not defined")

/-- A mute-state message as sent to a session. -/
structure MuteMsg where
  type : String
  muted : Bool
deriving Repr, DecidableEq

/-- Modelled from the spec: the process-wide mute flag of aiAssistant.js
(the module itself is not in the sources; the spec describes mute and
unmute as toggling a process-wide flag). -/
structure AssistantState where
  muted : Bool
deriving Repr, DecidableEq

/-- Modelled from the spec: muteAssistant sets the process-wide flag. -/
def muteAssistant (_ : AssistantState) : AssistantState := ⟨true⟩

/-- Modelled from the spec: getMuteState reads the process-wide flag. -/
def getMuteState (a : AssistantState) : Bool := a.muted

/-- broadcastMuteState of webSocket.js: build the mute-state message and
send it to every client of wss; evaluating the free identifier wss resolves
it against the module scope first. -/
def broadcastMuteState (muted : Bool) (openSessions : List ℕ) :
    Except String (List (ℕ × MuteMsg)) :=
  match lookupIdent webSocketModuleScope ("wss") with
  | Except.error e => Except.error e
  | Except.ok _ => Except.ok (openSessions.map (fun s => (s, ⟨"mute-state", muted⟩)))

/-- The mute branch of the message handler in startTelemetry: call
muteAssistant, then broadcastMuteState; the surrounding try/catch of the
message listener swallows any thrown error after logging it, so on a throw
no session receives anything.  Returns the new assistant state and the list
of (session, message) deliveries. -/
def handleMuteMessage (a : AssistantState) (openSessions : List ℕ) :
    AssistantState × List (ℕ × MuteMsg) :=
  let a1 := muteAssistant a
  match broadcastMuteState (getMuteState a1) openSessions with
  | Except.ok msgs => (a1, msgs)
  | Except.error _ => (a1, [])

/-! ## Fixture values used to instantiate theorems at concrete inputs -/

/-- A node value with every metric zero and status offline. -/
def offNode : SimNode := ⟨1, "A1", "A", 0, 0, 0, 0, "offline"⟩

/-- A cluster value with every field zero or empty. -/
def emptyCluster : Cluster :=
  ⟨"", "", "", "", "", "", 0, 0, 0, 0, 0, 0, "", "", 0, 0, [], false⟩

/-- An offline cluster holding the single offline node. -/
def offCluster : Cluster := { emptyCluster with status := "offline", nodes := [offNode] }

/-- A cluster whose power usage alone is 2770 kW, i.e. exactly the 2.77 MW
baseline. -/
def cluster2770 : Cluster := { emptyCluster with powerUsage := 2770 }

/-! ## Theorems -/

/-- C2: the claim says that after any session sends a mute message every
open session receives a mute-state message with muted true and the handling
does not fault.  The code faults instead: broadcastMuteState dereferences
the free identifier wss, which has no binding in the module scope of
webSocket.js (it is only a parameter of startTelemetry, and the wss of
server.js is local to that module), so the call throws a ReferenceError
that the message listener catches, and no session receives anything.  This
theorem evaluates the code at the failing input: two open sessions and one
mute message. -/
theorem mute_broadcast_reference_error :
    broadcastMuteState true [0, 1] =
      Except.error ("ReferenceError: wss is not defined")
    ∧ handleMuteMessage ⟨false⟩ [0, 1] = (⟨true⟩, []) := by
  constructor <;> rfl

/-- C7: the aggregated energySavings statistic equals
(baseline - powerDrawMW) / baseline * 100 with the fixed baseline 2.77 MW,
with no clamping: it is negative whenever the power draw exceeds the
baseline, and a fleet whose total power draw is exactly 2.77 MW yields
energySavings = 0. -/
theorem calculateStats_energySavings_formula (clusters : List Cluster) :
    (calculateStats clusters).energySavings =
      (baselinePower - (calculateStats clusters).powerDrawMW) / baselinePower * 100
    ∧ ((calculateStats clusters).powerDrawMW > baselinePower →
        (calculateStats clusters).energySavings < 0)
    ∧ ((calculateStats clusters).powerDrawMW = baselinePower →
        (calculateStats clusters).energySavings = 0) := by
  have hbp : (0 : ℚ) < baselinePower := by norm_num [baselinePower]
  refine ⟨rfl, ?_, ?_⟩
  · intro h
    have h2 : baselinePower - (calculateStats clusters).powerDrawMW < 0 :=
      sub_neg.mpr h
    have h3 : (baselinePower - (calculateStats clusters).powerDrawMW) / baselinePower < 0 :=
      div_neg_of_neg_of_pos h2 hbp
    have h4 : (baselinePower - (calculateStats clusters).powerDrawMW) / baselinePower * 100 < 0 :=
      mul_neg_of_neg_of_pos h3 (by norm_num)
    exact h4
  · intro h
    show (baselinePower - (calculateStats clusters).powerDrawMW) / baselinePower * 100 = 0
    rw [h, sub_self, zero_div, zero_mul]

/-- Witness for C7 at a concrete fleet whose total power draw is exactly
2.77 MW. -/
theorem calculateStats_energySavings_formula_witness :
    (calculateStats [cluster2770]).energySavings = 0 :=
  (calculateStats_energySavings_formula [cluster2770]).2.2
    (by norm_num [calculateStats, cluster2770, emptyCluster, baselinePower])

/-- The status computed by transformCluster is always one of the three
frontend literals. -/
lemma transformCluster_status_vocab (c : Cluster) :
    (transformCluster c).status = "active" ∨ (transformCluster c).status = "idle"
      ∨ (transformCluster c).status = "optimizing" := by
  simp only [transformCluster]
  split_ifs <;> simp

/-- The state computed by nodeView is always one of the three frontend
literals. -/
lemma nodeView_state_vocab (n : SimNode) :
    (nodeView n).state = "active" ∨ (nodeView n).state = "hot"
      ∨ (nodeView n).state = "idle" := by
  simp only [nodeView]
  split_ifs <;> simp

/-- C10: every cluster of the transformed broadcast payload has a status in
the fixed vocabulary active / idle / optimizing and every node of the GPU
grid view has a state in active / hot / idle; an offline cluster and an
offline node are reported with the literal idle, so the internal offline
status never appears in these two enum fields. -/
theorem frontend_status_vocabulary (clusters : List Cluster) :
    (∀ fc ∈ transformClustersForFrontend clusters,
        fc.status = "active" ∨ fc.status = "idle" ∨ fc.status = "optimizing")
    ∧ (∀ c ∈ clusters, c.status = "offline" → (transformCluster c).status = "idle")
    ∧ (∀ fn ∈ generateNodes clusters,
        fn.state = "active" ∨ fn.state = "hot" ∨ fn.state = "idle")
    ∧ (∀ c ∈ clusters, ∀ n ∈ c.nodes, n.status = "offline" →
        (nodeView n).state = "idle") := by
  refine ⟨?_, ?_, ?_, ?_⟩
  · intro fc hfc
    rcases List.mem_map.mp hfc with ⟨c, _, rfl⟩
    exact transformCluster_status_vocab c
  · intro c _ hoff
    simp [transformCluster, hoff]
  · intro fn hfn
    rcases List.mem_flatten.mp hfn with ⟨l, hl, hfnl⟩
    rcases List.mem_map.mp hl with ⟨c, _, rfl⟩
    rcases List.mem_map.mp hfnl with ⟨n, _, rfl⟩
    exact nodeView_state_vocab n
  · intro c _ n _ hoff
    simp [nodeView, hoff]

/-- Witness for C10: the concrete offline cluster and its offline node are
both reported as idle. -/
theorem frontend_status_vocabulary_witness :
    (transformCluster offCluster).status = "idle"
    ∧ (nodeView offNode).state = "idle" := by
  constructor
  · exact (frontend_status_vocabulary [offCluster]).2.1 offCluster
      (List.mem_singleton_self _) rfl
  · exact (frontend_status_vocabulary [offCluster]).2.2.2 offCluster
      (List.mem_singleton_self _) offNode (List.mem_singleton_self _) rfl

/-- Unfolding one appended update of runChart. -/
lemma runChart_append (l : List (String × List Cluster)) (x : String × List Cluster) :
    runChart (l ++ [x]) = updateChartData (runChart l) x.1 x.2 := by
  simp [runChart, List.foldl_append]

/-- Closed form of the chart history: each of the four series holds exactly
the last min(n, 21) pushed points, oldest first, where n is the number of
updates performed. -/
lemma runChart_closed_form (inputs : List (String × List Cluster)) :
    (runChart inputs).labels = (inputs.map Prod.fst).drop (inputs.length - 21)
    ∧ (runChart inputs).gpuData =
        (inputs.map (fun x => chartGpuPoint x.2)).drop (inputs.length - 21)
    ∧ (runChart inputs).coolingData =
        (inputs.map (fun x => chartCoolingPoint x.2)).drop (inputs.length - 21)
    ∧ (runChart inputs).energyData =
        (inputs.map (fun x => chartEnergyPoint x.2)).drop (inputs.length - 21)
    ∧ (runChart inputs).labels.length = min inputs.length 21 := by
  induction inputs using List.reverseRecOn with
  | nil => simp [runChart, emptyChartHistory]
  | append_singleton l x ih =>
    obtain ⟨hl, hg, hc, he, hlen⟩ := ih
    rw [runChart_append]
    have hlenl : (runChart l).labels.length = min l.length 21 := hlen
    by_cases hsmall : l.length ≤ 20
    · have hnoshift : ¬ 20 < (runChart l).labels.length := by omega
      have hd0 : l.length - 21 = 0 := by omega
      have hd1 : (l ++ [x]).length - 21 = 0 := by
        simp only [List.length_append, List.length_cons, List.length_nil]
        omega
      simp only [updateChartData]
      rw [if_neg hnoshift]
      refine ⟨?_, ?_, ?_, ?_, ?_⟩
      · rw [hl, hd0, hd1]; simp
      · rw [hg, hd0, hd1]; simp
      · rw [hc, hd0, hd1]; simp
      · rw [he, hd0, hd1]; simp
      · simp only [List.length_append, List.length_cons, List.length_nil, hlenl]
        omega
    · have hshift : 20 < (runChart l).labels.length := by omega
      have h21 : 21 ≤ l.length := by omega
      simp only [updateChartData]
      rw [if_pos hshift]
      have hdrop : ∀ (β : Type) (f : String × List Cluster → β),
          ((l.map f).drop (l.length - 21)).tail ++ [f x] =
            ((l ++ [x]).map f).drop ((l ++ [x]).length - 21) := by
        intro β f
        have hidx : l.length - 21 + 1 = (l ++ [x]).length - 21 := by
          simp only [List.length_append, List.length_cons, List.length_nil]
          omega
        rw [List.tail_drop, hidx, List.map_append,
          List.drop_append_of_le_length (by
            simp only [List.length_map, List.length_append, List.length_cons,
              List.length_nil]
            omega),
          List.map_cons, List.map_nil]
      refine ⟨?_, ?_, ?_, ?_, ?_⟩
      · rw [hl]; exact hdrop String Prod.fst
      · rw [hg]; exact hdrop ℚ (fun x => chartGpuPoint x.2)
      · rw [hc]; exact hdrop ℚ (fun x => chartCoolingPoint x.2)
      · rw [he]; exact hdrop ℚ (fun x => chartEnergyPoint x.2)
      · simp only [List.length_append, List.length_tail, List.length_cons,
          List.length_nil, hlenl]
        omega

/-- C1 counterexample: the claim as stated bounds the chart history by a
capacity of 20, but after 21 appends the history holds 21 entries, not 20. -/
theorem chartHistory_capacity_counterexample :
    (runChart (List.replicate 21 ("00:00:00", []))).labels.length = 21
    ∧ ¬ (runChart (List.replicate 21 ("00:00:00", []))).labels.length ≤ 20 := by
  have h := (runChart_closed_form (List.replicate 21 ("00:00:00", []))).2.2.2.2
  rw [List.length_replicate] at h
  omega

/-- C1 amended: the shift-then-push update of updateChartData only evicts
once the label buffer already exceeds 20 entries, so the effective capacity
of the chart history is 21: for every sequence of chart updates the history
never holds more than 21 entries, and after 21 + k appends (k greater or
equal 0) exactly 21 entries remain, namely the 21 most recent ones in
oldest-first order (shown here for all four series via their closed form:
each series equals the sequence of all pushed points with all but the last
21 dropped). -/
theorem chartHistory_capacity (inputs : List (String × List Cluster)) :
    (runChart inputs).labels.length ≤ 21
    ∧ (runChart inputs).labels.length = min inputs.length 21
    ∧ (runChart inputs).labels = (inputs.map Prod.fst).drop (inputs.length - 21)
    ∧ (runChart inputs).gpuData =
        (inputs.map (fun x => chartGpuPoint x.2)).drop (inputs.length - 21)
    ∧ (runChart inputs).coolingData =
        (inputs.map (fun x => chartCoolingPoint x.2)).drop (inputs.length - 21)
    ∧ (runChart inputs).energyData =
        (inputs.map (fun x => chartEnergyPoint x.2)).drop (inputs.length - 21) := by
  obtain ⟨hl, hg, hc, he, hlen⟩ := runChart_closed_form inputs
  exact ⟨by omega, hlen, hl, hg, hc, he⟩

/-- The inductive invariant of the state machine: a normal state has
multiplier 1 and duration 0, and a spike state has at least one tick of
duration left. -/
def MachineInv (m : MachineState) : Prop :=
  (m.current.status = "normal" →
    m.current.loadMultiplier = 1 ∧ m.current.duration = 0)
  ∧ (m.current.status = "spike" → 1 ≤ m.current.duration)

/-- Every profile the trigger branch can select has duration at least 1,
whatever the index. -/
lemma spikeProfiles_getD_duration_pos (i : ℕ) :
    1 ≤ ((spikeProfiles.get? i).getD ⟨"global", 3/2, 30⟩).duration := by
  rcases i with _ | _ | _ | _ | _ | i <;>
    simp [spikeProfiles, List.get?]

/-- One machine operation preserves the invariant. -/
lemma machineInv_step (m : MachineState) (o : Op) (h : MachineInv m) :
    MachineInv (applyOp m o) := by
  obtain ⟨hn, hs⟩ := h
  cases o with
  | trigger =>
    refine ⟨?_, ?_⟩ <;> simp [applyOp, simulateLoadSpike]
  | tick r =>
    simp only [applyOp, updateStateMachine, MachineInv]
    split_ifs with hsp hend htrig
    · have hd := hs hsp
      refine ⟨fun _ => ⟨rfl, ?_⟩, fun habs => ?_⟩
      · show m.current.duration - 1 = 0
        omega
      · simp at habs
    · have hd := hs hsp
      refine ⟨fun habs => ?_, fun _ => ?_⟩
      · simp only [hsp] at habs
        simp at habs
      · show 1 ≤ m.current.duration - 1
        omega
    · refine ⟨fun habs => ?_, fun _ => ?_⟩
      · simp at habs
      · exact spikeProfiles_getD_duration_pos (⌊r * 5⌋).toNat
    · exact ⟨hn, hs⟩

/-- Any sequence of operations preserves the invariant. -/
lemma machineInv_runOps (os : List Op) (m : MachineState) (h : MachineInv m) :
    MachineInv (runOps m os) := by
  induction os generalizing m with
  | nil => exact h
  | cons o os ih => exact ih (applyOp m o) (machineInv_step m o h)

/-- C9: in every state reachable from the initial module state by any
interleaving of updateStateMachine ticks and simulateLoadSpike manual
triggers, status normal implies loadMultiplier 1.0 and remaining duration
0.  The initial countdown c is arbitrary. -/
theorem spike_state_normal_invariant (c : ℚ) (os : List Op)
    (h : (runOps (initMachine c) os).current.status = "normal") :
    (runOps (initMachine c) os).current.loadMultiplier = 1
    ∧ (runOps (initMachine c) os).current.duration = 0 := by
  have hinv : MachineInv (runOps (initMachine c) os) :=
    machineInv_runOps os (initMachine c)
      ⟨fun _ => ⟨rfl, rfl⟩, fun habs => by simp [initMachine, initialClusterState] at habs⟩
  exact hinv.1 h

/-- Witness for C9 at the empty operation sequence. -/
theorem spike_state_normal_invariant_witness :
    (runOps (initMachine 0) []).current.loadMultiplier = 1
    ∧ (runOps (initMachine 0) []).current.duration = 0 :=
  spike_state_normal_invariant 0 [] rfl

/-- Unfolding one tick of runTicks. -/
lemma runTicks_succ (rs : ℕ → ℚ) (m : MachineState) (j : ℕ) :
    runTicks rs m (j + 1) = updateStateMachine (rs j) (runTicks rs m j) := rfl

/-- During the countdown phase, ticking from the initial state only
decrements the countdown: after j ticks (j below the countdown c) the
machine is still in its initial normal state with countdown c - j. -/
lemma runTicks_normal_phase (rs : ℕ → ℚ) (c : ℕ) :
    ∀ j, j < c →
      runTicks rs (initMachine c) j = ⟨initialClusterState, (c : ℚ) - j, j⟩ := by
  intro j
  induction j with
  | zero =>
    intro _
    simp [runTicks, initMachine]
  | succ j ih =>
    intro hj
    have hstep := ih (by omega)
    rw [runTicks_succ, hstep]
    have hj2 : (j : ℚ) + 1 < (c : ℚ) := by exact_mod_cast hj
    simp only [updateStateMachine, initialClusterState]
    rw [if_neg (by simp), if_neg (by intro habs; linarith)]
    simp only [MachineState.mk.injEq, ClusterState.mk.injEq, true_and, and_true]
    push_cast
    ring

/-- At tick number c exactly, the countdown reaches zero and the machine
enters the spike chosen by that tick's draw. -/
lemma runTicks_trigger (rs : ℕ → ℚ) (c : ℕ) (hc : 1 ≤ c) :
    runTicks rs (initMachine c) c =
      ⟨⟨"spike",
        ((spikeProfiles.get? (⌊rs (c - 1) * 5⌋).toNat).getD
          ⟨"global", 3/2, 30⟩).multiplier,
        ((spikeProfiles.get? (⌊rs (c - 1) * 5⌋).toNat).getD
          ⟨"global", 3/2, 30⟩).region,
        ((spikeProfiles.get? (⌊rs (c - 1) * 5⌋).toNat).getD
          ⟨"global", 3/2, 30⟩).duration⟩,
       0, c⟩ := by
  obtain ⟨e, rfl⟩ : ∃ e, c = e + 1 := ⟨c - 1, by omega⟩
  have hstep := runTicks_normal_phase rs (e + 1) e (by omega)
  rw [runTicks_succ, hstep]
  simp only [updateStateMachine, initialClusterState, Nat.add_sub_cancel]
  rw [if_neg (by simp), if_pos (by push_cast; linarith)]
  simp only [MachineState.mk.injEq, ClusterState.mk.injEq, true_and, and_true]
  push_cast
  ring

/-- Counting down through a spike: from any point where the machine shows a
spike with duration d (at least 1), the spike persists with a decremented
duration for d - 1 further ticks, and the tick number d returns the machine
to normal with multiplier 1, region global and duration 0, reseeding the
countdown from that tick's draw. -/
lemma runTicks_spike_phase (rs : ℕ → ℚ) (m0 : MachineState) (c : ℕ)
    (mult : ℚ) (reg : String) (d : ℤ) (hd : 1 ≤ d) (q : ℚ) (t : ℕ)
    (hstart : runTicks rs m0 c = ⟨⟨"spike", mult, reg, d⟩, q, t⟩) :
    (∀ j : ℕ, (j : ℤ) < d →
      runTicks rs m0 (c + j) = ⟨⟨"spike", mult, reg, d - j⟩, q, t + j⟩)
    ∧ runTicks rs m0 (c + d.toNat) =
        ⟨⟨"normal", 1, "global", 0⟩, rs (c + d.toNat - 1) * 180 + 120,
         t + d.toNat⟩ := by
  have hphase : ∀ j : ℕ, (j : ℤ) < d →
      runTicks rs m0 (c + j) = ⟨⟨"spike", mult, reg, d - j⟩, q, t + j⟩ := by
    intro j
    induction j with
    | zero =>
      intro _
      simpa using hstart
    | succ j ih =>
      intro hj
      have hprev := ih (by omega)
      rw [show c + (j + 1) = (c + j) + 1 from rfl, runTicks_succ, hprev]
      simp only [updateStateMachine]
      rw [if_pos (by simp), if_neg (by omega)]
      simp only [MachineState.mk.injEq, ClusterState.mk.injEq, true_and, and_true]
      push_cast
      omega
  refine ⟨hphase, ?_⟩
  obtain ⟨e, he⟩ : ∃ e : ℕ, d.toNat = e + 1 := ⟨d.toNat - 1, by omega⟩
  have hde : d = e + 1 := by omega
  have hprev := hphase e (by omega)
  rw [he, show c + (e + 1) = (c + e) + 1 from rfl, runTicks_succ, hprev]
  simp only [updateStateMachine]
  rw [if_pos (by simp), if_pos (by omega)]
  have hidx : c + e + 1 - 1 = c + e := by omega
  rw [hidx]
  simp only [MachineState.mk.injEq, ClusterState.mk.injEq, true_and, and_true]
  omega

/-- C5: started in state normal with next-spike countdown c and no manual
trigger, the machine stays normal for the first c - 1 ticks; after exactly
c ticks its status is spike carrying the multiplier and duration of one of
the entries of the fixed spike-profile table; the spike persists while its
duration counts down, and after exactly that duration of further ticks the
status is normal again with the multiplier reset to 1.0.  Draws are values
of Math.random, so they lie in [0,1). -/
theorem spike_state_machine_cycle (c : ℕ) (hc : 1 ≤ c) (rs : ℕ → ℚ)
    (hr : ∀ i, 0 ≤ rs i ∧ rs i < 1) :
    ∃ p ∈ spikeProfiles,
      (∀ j, j < c → (runTicks rs (initMachine c) j).current.status = "normal")
      ∧ (runTicks rs (initMachine c) c).current =
          ⟨"spike", p.multiplier, p.region, p.duration⟩
      ∧ (∀ j : ℕ, (j : ℤ) < p.duration →
          (runTicks rs (initMachine c) (c + j)).current.status = "spike")
      ∧ (runTicks rs (initMachine c) (c + p.duration.toNat)).current.status = "normal"
      ∧ (runTicks rs (initMachine c) (c + p.duration.toNat)).current.loadMultiplier
          = 1 := by
  obtain ⟨h0, h1⟩ := hr (c - 1)
  have h05 : 0 ≤ ⌊rs (c - 1) * 5⌋ := Int.floor_nonneg.mpr (by nlinarith)
  have h5 : ⌊rs (c - 1) * 5⌋ < 5 := Int.floor_lt.mpr (by push_cast; nlinarith)
  have hlt : (⌊rs (c - 1) * 5⌋).toNat < 5 := by omega
  have hlen : (⌊rs (c - 1) * 5⌋).toNat < spikeProfiles.length := by
    simpa [spikeProfiles] using hlt
  set p := (spikeProfiles.get? (⌊rs (c - 1) * 5⌋).toNat).getD ⟨"global", 3/2, 30⟩
    with hp
  have hmem : p ∈ spikeProfiles := by
    rw [hp, List.get?_eq_get hlen, Option.getD_some]
    exact List.get_mem spikeProfiles _ hlen
  have hdur : 1 ≤ p.duration := by
    rw [hp]
    exact spikeProfiles_getD_duration_pos _
  have htrig : runTicks rs (initMachine c) c =
      ⟨⟨"spike", p.multiplier, p.region, p.duration⟩, 0, c⟩ := by
    rw [hp]
    exact runTicks_trigger rs c hc
  have hphase := runTicks_spike_phase rs (initMachine c) c p.multiplier p.region
    p.duration hdur 0 c htrig
  refine ⟨p, hmem, ?_, ?_, ?_, ?_, ?_⟩
  · intro j hj
    rw [runTicks_normal_phase rs c j hj]
    rfl
  · rw [htrig]
  · intro j hj
    rw [hphase.1 j hj]
  · rw [hphase.2]
  · rw [hphase.2]

/-- Witness for C5 with countdown 1 and the all-zero draw stream. -/
theorem spike_state_machine_cycle_witness :
    ∃ p ∈ spikeProfiles,
      (∀ j, j < 1 →
        (runTicks (fun _ => 0) (initMachine 1) j).current.status = "normal")
      ∧ (runTicks (fun _ => 0) (initMachine 1) 1).current =
          ⟨"spike", p.multiplier, p.region, p.duration⟩
      ∧ (∀ j : ℕ, (j : ℤ) < p.duration →
          (runTicks (fun _ => 0) (initMachine 1) (1 + j)).current.status = "spike")
      ∧ (runTicks (fun _ => 0) (initMachine 1)
          (1 + p.duration.toNat)).current.status = "normal"
      ∧ (runTicks (fun _ => 0) (initMachine 1)
          (1 + p.duration.toNat)).current.loadMultiplier = 1 :=
  spike_state_machine_cycle 1 (le_refl 1) (fun _ => 0)
    (fun _ => ⟨le_refl 0, by norm_num⟩)

/-- The metric ranges claimed for every synthesized node: gpuLoad and
cooling in [0,100], temperature and power non-negative, and an offline node
reports exactly zero for all four metrics. -/
def NodeMetricsOK (n : SimNode) : Prop :=
  0 ≤ n.gpuLoad ∧ n.gpuLoad ≤ 100 ∧ 0 ≤ n.cooling ∧ n.cooling ≤ 100 ∧
  0 ≤ n.temperature ∧ 0 ≤ n.powerUsage ∧
  (n.status = "offline" →
    n.gpuLoad = 0 ∧ n.cooling = 0 ∧ n.temperature = 0 ∧ n.powerUsage = 0)

/-- Rounding to two decimals preserves non-negativity. -/
lemma toFixed2_nonneg (q : ℚ) (h : 0 ≤ q) : 0 ≤ toFixed2 q := by
  unfold toFixed2
  apply div_nonneg _ (by norm_num)
  have h2 : (0 : ℤ) ≤ ⌊q * 100 + 1/2⌋ := Int.floor_nonneg.mpr (by nlinarith)
  exact_mod_cast h2

/-- The clamp used for gpuLoad and cooling lands in [0, 100]. -/
lemma clamp_bounds (x : ℚ) : 0 ≤ min 100 (max 0 x) ∧ min 100 (max 0 x) ≤ 100 :=
  ⟨le_min (by norm_num) (le_max_left _ _), min_le_left _ _⟩

/-- The shared tail of node generation yields in-range metrics whenever the
clamped gpuLoad handed to it is in range and the temperature draw is
non-negative. -/
lemma genNodeFinish_metrics (rand : ℕ → ℚ) (k2 nodeId : ℕ) (label cname : String)
    (g rc : ℚ) (hg0 : 0 ≤ g) (hg1 : g ≤ 100) (hrt : 0 ≤ rand k2) :
    NodeMetricsOK (genNodeFinish rand k2 nodeId label cname g rc).1 := by
  have hcool := clamp_bounds rc
  have htemp : 0 ≤ 20 + g * (1/5) + (rand k2 * 4 - 2) := by nlinarith
  have hpow : 0 ≤ toFixed2 (3/2 + g / 100 * (9/2) + min 100 (max 0 rc) / 100 * (4/5)) :=
    toFixed2_nonneg _ (by nlinarith [hcool.1])
  have hne : ("online" : String) ≠ "offline" := by decide
  by_cases hoff : rand (k2 + 1) < 1/50
  · simp only [NodeMetricsOK, genNodeFinish]
    rw [if_pos hoff]
    norm_num
  · simp only [NodeMetricsOK, genNodeFinish]
    rw [if_neg hoff]
    simp only [if_neg hne]
    exact ⟨hg0, hg1, hcool.1, hcool.2, htemp, hpow, fun habs => absurd habs hne⟩

/-- In-range metrics for every node produced by genNode, for any draw
stream of non-negative values. -/
lemma genNode_metrics (rand : ℕ → ℚ) (k : ℕ) (bias : ℚ) (isAff : Bool)
    (mult : ℚ) (nodeId : ℕ) (label cname : String) (hr : ∀ i, 0 ≤ rand i) :
    NodeMetricsOK (genNode rand k bias isAff mult nodeId label cname).1 := by
  simp only [genNode]
  by_cases hbr : rand (k + 2) > 3/10
  · rw [if_pos hbr]
    exact genNodeFinish_metrics _ _ _ _ _ _ _ (clamp_bounds _).1 (clamp_bounds _).2
      (hr _)
  · rw [if_neg hbr]
    exact genNodeFinish_metrics _ _ _ _ _ _ _ (clamp_bounds _).1 (clamp_bounds _).2
      (hr _)

/-- The status stored by the shared tail is online or offline. -/
lemma genNodeFinish_status (rand : ℕ → ℚ) (k2 nodeId : ℕ) (label cname : String)
    (g rc : ℚ) :
    (genNodeFinish rand k2 nodeId label cname g rc).1.status = "online"
    ∨ (genNodeFinish rand k2 nodeId label cname g rc).1.status = "offline" := by
  by_cases hoff : rand (k2 + 1) < 1/50
  · right
    simp only [genNodeFinish]
    rw [if_pos hoff]
  · left
    simp only [genNodeFinish]
    rw [if_neg hoff]

/-- The status of every generated node is online or offline. -/
lemma genNode_status (rand : ℕ → ℚ) (k : ℕ) (bias : ℚ) (isAff : Bool)
    (mult : ℚ) (nodeId : ℕ) (label cname : String) :
    (genNode rand k bias isAff mult nodeId label cname).1.status = "online"
    ∨ (genNode rand k bias isAff mult nodeId label cname).1.status = "offline" := by
  simp only [genNode]
  by_cases hbr : rand (k + 2) > 3/10
  · rw [if_pos hbr]; exact genNodeFinish_status _ _ _ _ _ _ _
  · rw [if_neg hbr]; exact genNodeFinish_status _ _ _ _ _ _ _

/-- An offline node stores zero for all four metrics (tail form). -/
lemma genNodeFinish_offline_zero (rand : ℕ → ℚ) (k2 nodeId : ℕ)
    (label cname : String) (g rc : ℚ)
    (h : (genNodeFinish rand k2 nodeId label cname g rc).1.status = "offline") :
    (genNodeFinish rand k2 nodeId label cname g rc).1.gpuLoad = 0
    ∧ (genNodeFinish rand k2 nodeId label cname g rc).1.cooling = 0
    ∧ (genNodeFinish rand k2 nodeId label cname g rc).1.temperature = 0
    ∧ (genNodeFinish rand k2 nodeId label cname g rc).1.powerUsage = 0 := by
  by_cases hoff : rand (k2 + 1) < 1/50
  · simp only [genNodeFinish]
    rw [if_pos hoff]
    norm_num
  · exfalso
    simp only [genNodeFinish] at h
    rw [if_neg hoff] at h
    exact absurd h (by decide)

/-- An offline node stores zero for all four metrics. -/
lemma genNode_offline_zero (rand : ℕ → ℚ) (k : ℕ) (bias : ℚ) (isAff : Bool)
    (mult : ℚ) (nodeId : ℕ) (label cname : String)
    (h : (genNode rand k bias isAff mult nodeId label cname).1.status = "offline") :
    (genNode rand k bias isAff mult nodeId label cname).1.gpuLoad = 0
    ∧ (genNode rand k bias isAff mult nodeId label cname).1.cooling = 0
    ∧ (genNode rand k bias isAff mult nodeId label cname).1.temperature = 0
    ∧ (genNode rand k bias isAff mult nodeId label cname).1.powerUsage = 0 := by
  simp only [genNode] at h ⊢
  by_cases hbr : rand (k + 2) > 3/10
  · rw [if_pos hbr] at h ⊢
    exact genNodeFinish_offline_zero _ _ _ _ _ _ _ h
  · rw [if_neg hbr] at h ⊢
    exact genNodeFinish_offline_zero _ _ _ _ _ _ _ h

/-- Under the all-zero draw stream every node samples offline (the offline
draw 0 is below the 2 percent threshold). -/
lemma genNode_zero_offline (k : ℕ) (bias : ℚ) (isAff : Bool) (mult : ℚ)
    (nodeId : ℕ) (label cname : String) :
    ((genNode (fun _ => 0) k bias isAff mult nodeId label cname).1).status
      = "offline" := by
  norm_num [genNode, genNodeFinish]

/-- Under the constant one-half draw stream every node samples online. -/
lemma genNode_half_online (k : ℕ) (bias : ℚ) (isAff : Bool) (mult : ℚ)
    (nodeId : ℕ) (label cname : String) :
    ((genNode (fun _ => (1 : ℚ)/2) k bias isAff mult nodeId label cname).1).status
      = "online" := by
  norm_num [genNode, genNodeFinish]

/-- The node loop produces exactly fuel nodes. -/
lemma genNodesFrom_length (rand : ℕ → ℚ) (bias : ℚ) (isAff : Bool) (mult : ℚ)
    (ci : ℕ) (cname : String) :
    ∀ fuel i k, (genNodesFrom rand bias isAff mult ci cname i fuel k).1.length
      = fuel := by
  intro fuel
  induction fuel with
  | zero => intro i k; rfl
  | succ fuel ih =>
    intro i k
    simp only [genNodesFrom, List.length_cons, ih]

/-- A property holding of every genNode output (for the given stream, bias,
affectedness and multiplier) holds of every node the loop produces. -/
lemma genNodesFrom_forall (rand : ℕ → ℚ) (bias : ℚ) (isAff : Bool) (mult : ℚ)
    (ci : ℕ) (cname : String) (P : SimNode → Prop)
    (hP : ∀ k nodeId label, P (genNode rand k bias isAff mult nodeId label cname).1) :
    ∀ fuel i k, ∀ n ∈ (genNodesFrom rand bias isAff mult ci cname i fuel k).1,
      P n := by
  intro fuel
  induction fuel with
  | zero =>
    intro i k n hn
    simp [genNodesFrom] at hn
  | succ fuel ih =>
    intro i k n hn
    simp only [genNodesFrom, List.mem_cons] at hn
    rcases hn with rfl | hn
    · exact hP _ _ _
    · exact ih _ _ n hn

/-- The nodes of a generated cluster are exactly the loop output. -/
lemma generateCluster_nodes (rand : ℕ → ℚ) (now : String) (state : ClusterState)
    (ci k : ℕ) :
    (generateCluster rand now state ci k).1.nodes =
      (genNodesFrom rand (profileAt ci).gpuBias (isAffectedFor state ci)
        state.loadMultiplier ci (profileAt ci).name 0 8 k).1 := rfl

/-- A generated cluster always carries 8 nodes. -/
lemma generateCluster_nodes_length (rand : ℕ → ℚ) (now : String)
    (state : ClusterState) (ci k : ℕ) :
    (generateCluster rand now state ci k).1.nodes.length = 8 := by
  rw [generateCluster_nodes]
  exact genNodesFrom_length rand _ _ _ ci _ 8 0 k

/-- The active-node count of a generated cluster is the length of the
online filter of its nodes. -/
lemma generateCluster_activeNodes (rand : ℕ → ℚ) (now : String)
    (state : ClusterState) (ci k : ℕ) :
    (generateCluster rand now state ci k).1.activeNodes =
      ((generateCluster rand now state ci k).1.nodes.filter
        (fun n => n.status == "online")).length := rfl

/-- The status of a generated cluster is offline exactly when the all-nodes
check fires, else online. -/
lemma generateCluster_status (rand : ℕ → ℚ) (now : String)
    (state : ClusterState) (ci k : ℕ) :
    (generateCluster rand now state ci k).1.status =
      (if (generateCluster rand now state ci k).1.nodes.all
          (fun n => n.status == "offline") then "offline" else "online") := rfl

/-- The power of a generated cluster is the sum of its node powers. -/
lemma generateCluster_powerUsage (rand : ℕ → ℚ) (now : String)
    (state : ClusterState) (ci k : ℕ) :
    (generateCluster rand now state ci k).1.powerUsage =
      (((generateCluster rand now state ci k).1.nodes).map SimNode.powerUsage).sum :=
  rfl

/-- The cooling of a generated cluster is the rounded mean of its node
cooling values. -/
lemma generateCluster_cooling (rand : ℕ → ℚ) (now : String)
    (state : ClusterState) (ci k : ℕ) :
    (generateCluster rand now state ci k).1.cooling =
      jsRound ((((generateCluster rand now state ci k).1.nodes).map
        SimNode.cooling).sum / 8) := rfl

/-- A per-node property lifted to every node of a generated cluster. -/
lemma generateCluster_nodes_forall (rand : ℕ → ℚ) (P : SimNode → Prop)
    (hP : ∀ k bias isAff mult nodeId label cname,
      P (genNode rand k bias isAff mult nodeId label cname).1)
    (now : String) (state : ClusterState) (ci k : ℕ) :
    ∀ n ∈ (generateCluster rand now state ci k).1.nodes, P n := by
  rw [generateCluster_nodes]
  exact genNodesFrom_forall rand _ _ _ ci _ P
    (fun k2 nodeId label => hP _ _ _ _ _ _ _) 8 0 k

/-- The cluster loop produces exactly fuel clusters. -/
lemma genClusters_length (rand : ℕ → ℚ) (now : String) (state : ClusterState) :
    ∀ fuel i k, (genClusters rand now state i fuel k).1.length = fuel := by
  intro fuel
  induction fuel with
  | zero => intro i k; rfl
  | succ fuel ih =>
    intro i k
    simp only [genClusters, List.length_cons, ih]

/-- A property holding of every generateCluster output holds of every
cluster the loop produces. -/
lemma genClusters_forall (rand : ℕ → ℚ) (now : String) (state : ClusterState)
    (Q : Cluster → Prop)
    (hQ : ∀ i k, Q (generateCluster rand now state i k).1) :
    ∀ fuel i k, ∀ c ∈ (genClusters rand now state i fuel k).1, Q c := by
  intro fuel
  induction fuel with
  | zero =>
    intro i k c hc
    simp [genClusters] at hc
  | succ fuel ih =>
    intro i k c hc
    simp only [genClusters, List.mem_cons] at hc
    rcases hc with rfl | hc
    · exact hQ _ _
    · exact ih _ _ c hc

/-- A property holding of every generateCluster output holds of every
cluster of the fleet snapshot. -/
lemma generateTelemetry_forall (rand : ℕ → ℚ) (now : String)
    (state : ClusterState) (Q : Cluster → Prop)
    (hQ : ∀ i k, Q (generateCluster rand now state i k).1) :
    ∀ c ∈ generateTelemetry rand now state, Q c :=
  genClusters_forall rand now state Q hQ 8 0 0

/-- A fleet snapshot always holds 8 clusters. -/
lemma generateTelemetry_length (rand : ℕ → ℚ) (now : String)
    (state : ClusterState) :
    (generateTelemetry rand now state).length = 8 :=
  genClusters_length rand now state 8 0 0

/-- C3: for every node of every cluster of a fleet snapshot, whatever
non-negative values the injected random source supplies (Math.random draws
are non-negative), gpuLoad and cooling lie in [0,100], temperature and
powerUsage are non-negative (as rationals they are finite by construction),
and an offline node reports exactly zero for all four metrics. -/
theorem generateTelemetry_node_metrics (rand : ℕ → ℚ) (now : String)
    (state : ClusterState) (hr : ∀ i, 0 ≤ rand i) :
    ∀ c ∈ generateTelemetry rand now state, ∀ n ∈ c.nodes, NodeMetricsOK n := by
  refine generateTelemetry_forall rand now state
    (fun c => ∀ n ∈ c.nodes, NodeMetricsOK n) (fun i k => ?_)
  exact generateCluster_nodes_forall rand NodeMetricsOK
    (fun k2 bias isAff mult nodeId label cname =>
      genNode_metrics rand k2 bias isAff mult nodeId label cname hr)
    now state i k

/-- The status of every node of a fleet snapshot is online or offline. -/
lemma generateTelemetry_node_status (rand : ℕ → ℚ) (now : String)
    (state : ClusterState) :
    ∀ c ∈ generateTelemetry rand now state, ∀ n ∈ c.nodes,
      n.status = "online" ∨ n.status = "offline" :=
  generateTelemetry_forall rand now state
    (fun c => ∀ n ∈ c.nodes, n.status = "online" ∨ n.status = "offline")
    (fun i k =>
      generateCluster_nodes_forall rand
        (fun n => n.status = "online" ∨ n.status = "offline")
        (fun k2 bias isAff mult nodeId label cname =>
          genNode_status rand k2 bias isAff mult nodeId label cname)
        now state i k)

/-- Membership of a defaulted indexed read, for indices in range. -/
lemma getD_get?_mem {A : Type} (l : List A) (j : ℕ) (d : A) (h : j < l.length) :
    (l.get? j).getD d ∈ l := by
  rw [List.get?_eq_get h, Option.getD_some]
  exact List.get_mem l j h

/-- Every cluster of a fleet snapshot carries 8 nodes. -/
lemma generateTelemetry_nodes_length (rand : ℕ → ℚ) (now : String)
    (state : ClusterState) :
    ∀ c ∈ generateTelemetry rand now state, c.nodes.length = 8 :=
  generateTelemetry_forall rand now state (fun c => c.nodes.length = 8)
    (fun i k => generateCluster_nodes_length rand now state i k)

/-- Witness for C3 at the all-zero draw stream, the first node of the first
cluster. -/
theorem generateTelemetry_node_metrics_witness :
    NodeMetricsOK (((((generateTelemetry (fun _ => 0) ("00:00:00")
      initialClusterState).get? 0).getD emptyCluster).nodes.get? 0).getD offNode) := by
  have hc : ((generateTelemetry (fun _ => 0) ("00:00:00")
      initialClusterState).get? 0).getD emptyCluster
        ∈ generateTelemetry (fun _ => 0) ("00:00:00") initialClusterState :=
    getD_get?_mem _ 0 _ (by rw [generateTelemetry_length]; norm_num)
  have hnlen : (((generateTelemetry (fun _ => 0) ("00:00:00")
      initialClusterState).get? 0).getD emptyCluster).nodes.length = 8 :=
    generateTelemetry_nodes_length _ _ _ _ hc
  exact generateTelemetry_node_metrics (fun _ => 0) ("00:00:00") initialClusterState
    (fun i => le_refl 0) _ hc _ (getD_get?_mem _ 0 _ (by rw [hnlen]; norm_num))

/-- The online filter is empty exactly when every node is offline, given
the online/offline dichotomy. -/
lemma filter_online_length_zero (l : List SimNode)
    (hdich : ∀ n ∈ l, n.status = "online" ∨ n.status = "offline") :
    ((l.filter (fun n => n.status == "online")).length = 0
      ↔ ∀ n ∈ l, n.status = "offline") := by
  induction l with
  | nil => simp
  | cons a l ih =>
    have ha := hdich a (List.mem_cons_self a l)
    have ihl := ih (fun n hn => hdich n (List.mem_cons_of_mem a hn))
    rcases ha with hon | hoff
    · simp [List.filter_cons, List.forall_mem_cons, hon]
    · simp [List.filter_cons, List.forall_mem_cons, hoff, ihl]

/-- C4: every cluster of a fleet snapshot has at most 8 active nodes, and
its status is offline exactly when the active-node count is 0. -/
theorem generateCluster_active_count_status (rand : ℕ → ℚ) (now : String)
    (state : ClusterState) (c : Cluster)
    (hc : c ∈ generateTelemetry rand now state) :
    c.activeNodes ≤ 8 ∧ (c.status = "offline" ↔ c.activeNodes = 0) := by
  refine generateTelemetry_forall rand now state
    (fun c => c.activeNodes ≤ 8 ∧ (c.status = "offline" ↔ c.activeNodes = 0))
    (fun i k => ?_) c hc
  have hdich : ∀ n ∈ (generateCluster rand now state i k).1.nodes,
      n.status = "online" ∨ n.status = "offline" :=
    generateCluster_nodes_forall rand
      (fun n => n.status = "online" ∨ n.status = "offline")
      (fun k2 bias isAff mult nodeId label cname =>
        genNode_status rand k2 bias isAff mult nodeId label cname)
      now state i k
  have hiff := filter_online_length_zero _ hdich
  constructor
  · rw [generateCluster_activeNodes]
    calc ((generateCluster rand now state i k).1.nodes.filter
          (fun n => n.status == "online")).length
        ≤ (generateCluster rand now state i k).1.nodes.length :=
          List.length_filter_le _ _
      _ = 8 := generateCluster_nodes_length rand now state i k
  · rw [generateCluster_status, generateCluster_activeNodes]
    by_cases hall : (generateCluster rand now state i k).1.nodes.all
        (fun n => n.status == "offline")
    · rw [if_pos hall]
      have hoffall : ∀ n ∈ (generateCluster rand now state i k).1.nodes,
          n.status = "offline" := by
        intro n hn
        have hb := List.all_eq_true.mp hall n hn
        simpa [beq_iff_eq] using hb
      exact ⟨fun _ => hiff.mpr hoffall, fun _ => rfl⟩
    · rw [if_neg hall]
      constructor
      · intro habs
        exact absurd habs (by decide)
      · intro hzero
        exfalso
        apply hall
        rw [List.all_eq_true]
        intro n hn
        simpa [beq_iff_eq] using hiff.mp hzero n hn
  
/-- Witness for C4 at the all-zero draw stream, the first cluster. -/
theorem generateCluster_active_count_status_witness :
    (((generateTelemetry (fun _ => 0) ("00:00:00") initialClusterState).get? 0).getD
      emptyCluster).activeNodes ≤ 8
    ∧ ((((generateTelemetry (fun _ => 0) ("00:00:00")
          initialClusterState).get? 0).getD emptyCluster).status = "offline"
        ↔ (((generateTelemetry (fun _ => 0) ("00:00:00")
          initialClusterState).get? 0).getD emptyCluster).activeNodes = 0) :=
  generateCluster_active_count_status _ _ _ _
    (getD_get?_mem _ 0 _ (by rw [generateTelemetry_length]; norm_num))

/-- C6: if every node of every cluster of a fleet snapshot samples offline,
the aggregated stats satisfy powerDrawMW = 0, coolingPUE = 1.0 via the
divide-by-zero fallback (the guard takes the else branch, so no division
happens), and co2OffsetKg = 0. -/
theorem calculateStats_all_offline (rand : ℕ → ℚ) (now : String)
    (state : ClusterState)
    (hall : ∀ c ∈ generateTelemetry rand now state, ∀ n ∈ c.nodes,
      n.status = "offline") :
    (calculateStats (generateTelemetry rand now state)).powerDrawMW = 0
    ∧ (calculateStats (generateTelemetry rand now state)).coolingPUE = 1
    ∧ (calculateStats (generateTelemetry rand now state)).co2OffsetKg = 0 := by
  have hz : ∀ c ∈ generateTelemetry rand now state,
      (∀ n ∈ c.nodes, n.status = "offline") → c.powerUsage = 0 := by
    refine generateTelemetry_forall rand now state
      (fun c => (∀ n ∈ c.nodes, n.status = "offline") → c.powerUsage = 0)
      (fun i k => ?_)
    intro hoffall
    have hlift : ∀ n ∈ (generateCluster rand now state i k).1.nodes,
        n.status = "offline" → n.powerUsage = 0 :=
      generateCluster_nodes_forall rand
        (fun n => n.status = "offline" → n.powerUsage = 0)
        (fun k2 bias isAff mult nodeId label cname hoff =>
          (genNode_offline_zero rand k2 bias isAff mult nodeId label cname
            hoff).2.2.2)
        now state i k
    rw [generateCluster_powerUsage]
    apply List.sum_eq_zero
    intro x hx
    rcases List.mem_map.mp hx with ⟨n, hn, rfl⟩
    exact hlift n hn (hoffall n hn)
  have hsum : ((generateTelemetry rand now state).map Cluster.powerUsage).sum
      = 0 := by
    apply List.sum_eq_zero
    intro x hx
    rcases List.mem_map.mp hx with ⟨c, hc, rfl⟩
    exact hz c hc (hall c hc)
  simp only [calculateStats]
  rw [hsum]
  norm_num [jsRound]

/-- Under the all-zero draw stream, every node of the fleet is offline. -/
lemma generateTelemetry_zero_offline (now : String) (state : ClusterState) :
    ∀ c ∈ generateTelemetry (fun _ => 0) now state, ∀ n ∈ c.nodes,
      n.status = "offline" :=
  generateTelemetry_forall _ now state
    (fun c => ∀ n ∈ c.nodes, n.status = "offline")
    (fun i k =>
      generateCluster_nodes_forall _ (fun n => n.status = "offline")
        (fun k2 bias isAff mult nodeId label cname =>
          genNode_zero_offline k2 bias isAff mult nodeId label cname)
        now state i k)

/-- Witness for C6: the all-zero draw stream makes every node offline. -/
theorem calculateStats_all_offline_witness :
    (calculateStats (generateTelemetry (fun _ => 0) ("00:00:00")
      initialClusterState)).powerDrawMW = 0
    ∧ (calculateStats (generateTelemetry (fun _ => 0) ("00:00:00")
      initialClusterState)).coolingPUE = 1
    ∧ (calculateStats (generateTelemetry (fun _ => 0) ("00:00:00")
      initialClusterState)).co2OffsetKg = 0 :=
  calculateStats_all_offline _ _ _
    (generateTelemetry_zero_offline ("00:00:00") initialClusterState)

/-- The draw counter advanced by genNode depends only on the stream and the
starting counter, not on the bias, affectedness, multiplier or labels. -/
lemma genNode_snd (rand : ℕ → ℚ) (k : ℕ) (bias : ℚ) (isAff : Bool) (mult : ℚ)
    (nodeId : ℕ) (label cname : String) :
    (genNode rand k bias isAff mult nodeId label cname).2 =
      if rand (k + 2) > 3/10 then k + 6 else k + 5 := by
  simp only [genNode, genNodeFinish]
  by_cases hbr : rand (k + 2) > 3/10
  · rw [if_pos hbr, if_pos hbr]
  · rw [if_neg hbr, if_neg hbr]

/-- Comparing two runs of the node tail that share the draw stream and
counter: the statuses agree, the stored gpuLoad respects a strict order of
the clamped inputs, and an offline node stores zero in both runs. -/
lemma genNodeFinish_compare (rand : ℕ → ℚ) (k2 nodeId : ℕ)
    (label cname : String) (g1 g2 rc1 rc2 : ℚ) (hlt : g1 < g2) :
    (genNodeFinish rand k2 nodeId label cname g1 rc1).1.status
      = (genNodeFinish rand k2 nodeId label cname g2 rc2).1.status
    ∧ (genNodeFinish rand k2 nodeId label cname g1 rc1).1.gpuLoad
      ≤ (genNodeFinish rand k2 nodeId label cname g2 rc2).1.gpuLoad
    ∧ ((genNodeFinish rand k2 nodeId label cname g1 rc1).1.status = "online" →
        (genNodeFinish rand k2 nodeId label cname g1 rc1).1.gpuLoad
          < (genNodeFinish rand k2 nodeId label cname g2 rc2).1.gpuLoad) := by
  by_cases hoff : rand (k2 + 1) < 1/50
  · simp only [genNodeFinish]
    rw [if_pos hoff]
    norm_num
    intro habs
    exact absurd habs (by decide)
  · simp only [genNodeFinish]
    rw [if_neg hoff]
    have hne : ("online" : String) ≠ "offline" := by decide
    simp only [if_neg hne]
    exact ⟨trivial, le_of_lt hlt, fun _ => hlt⟩

/-- Per-node spike comparison: with the same draws and a bias from the
profile table, the node generated under the manual global spike (multiplier
1.5) has the same status as, and a gpuLoad at least as large as, the node
generated under the normal state (multiplier 1.0); strictly larger when the
node is online. -/
lemma genNode_compare (rand : ℕ → ℚ) (k : ℕ) (bias : ℚ)
    (hb0 : -20 ≤ bias) (hb1 : bias ≤ 20)
    (hr0 : 0 ≤ rand k) (hr1 : rand k < 1) (nodeId : ℕ) (label cname : String) :
    (genNode rand k bias true 1 nodeId label cname).1.status
      = (genNode rand k bias true (3/2) nodeId label cname).1.status
    ∧ (genNode rand k bias true 1 nodeId label cname).1.gpuLoad
      ≤ (genNode rand k bias true (3/2) nodeId label cname).1.gpuLoad
    ∧ ((genNode rand k bias true 1 nodeId label cname).1.status = "online" →
        (genNode rand k bias true 1 nodeId label cname).1.gpuLoad
          < (genNode rand k bias true (3/2) nodeId label cname).1.gpuLoad) := by
  have h30 : (0 : ℚ) ≤ rand k * 30 := by positivity
  have h30b : rand k * 30 < 30 := by nlinarith
  have h15 : (15 : ℚ) ≤ 50 + bias + (rand k * 30 - 15) := by linarith
  have h85 : 50 + bias + (rand k * 30 - 15) < 85 := by linarith
  have hf1lo : (15 : ℤ) ≤ ⌊50 + bias + (rand k * 30 - 15)⌋ :=
    Int.le_floor.mpr (by exact_mod_cast h15)
  have hf1hi : ⌊50 + bias + (rand k * 30 - 15)⌋ < 85 :=
    Int.floor_lt.mpr (by exact_mod_cast h85)
  have hfle : (⌊50 + bias + (rand k * 30 - 15)⌋ : ℚ)
      ≤ 50 + bias + (rand k * 30 - 15) := Int.floor_le _
  have hf2 : ⌊50 + bias + (rand k * 30 - 15)⌋ + 7
      ≤ ⌊(50 + bias + (rand k * 30 - 15)) * (3/2)⌋ := by
    apply Int.le_floor.mpr
    push_cast
    nlinarith
  have hg1 : min 100 (max 0 (jsFloor ((50 + bias + (rand k * 30 - 15)) * 1)))
      = (⌊50 + bias + (rand k * 30 - 15)⌋ : ℚ) := by
    rw [mul_one, jsFloor]
    rw [max_eq_right (by exact_mod_cast le_trans (by norm_num) hf1lo),
      min_eq_right (by exact_mod_cast le_of_lt (lt_of_lt_of_le hf1hi (by norm_num)))]
  have hg2lo : (⌊50 + bias + (rand k * 30 - 15)⌋ : ℚ) + 7
      ≤ min 100 (max 0 (jsFloor ((50 + bias + (rand k * 30 - 15)) * (3/2)))) := by
    rw [jsFloor]
    apply le_min
    · have : (⌊50 + bias + (rand k * 30 - 15)⌋ : ℚ) < 85 := by exact_mod_cast hf1hi
      linarith
    · refine le_trans ?_ (le_max_right 0 _)
      exact_mod_cast hf2
  have hglt : min 100 (max 0 (jsFloor ((50 + bias + (rand k * 30 - 15)) * 1)))
      < min 100 (max 0 (jsFloor ((50 + bias + (rand k * 30 - 15)) * (3/2)))) := by
    rw [hg1]
    linarith
  simp only [genNode]
  by_cases hbr : rand (k + 2) > 3/10
  · rw [if_pos hbr, if_pos hbr]
    exact genNodeFinish_compare rand (k + 4) nodeId label cname _ _ _ _ hglt
  · rw [if_neg hbr, if_neg hbr]
    exact genNodeFinish_compare rand (k + 3) nodeId label cname _ _ _ _ hglt

/-- Every profile bias, whatever the index, lies in [-20, 20]. -/
lemma profileAt_bias (ci : ℕ) :
    -20 ≤ (profileAt ci).gpuBias ∧ (profileAt ci).gpuBias ≤ 20 := by
  rcases ci with _ | _ | _ | _ | _ | _ | _ | _ | ci <;>
    norm_num [profileAt, clusterProfiles, List.get?]

/-- List-level spike comparison: the two runs thread the same draw counter,
the normal-run gpuLoad sum never exceeds the spiked-run sum, and it is
strictly below whenever some node of the normal run is online. -/
lemma genNodesFrom_compare (rand : ℕ → ℚ) (bias : ℚ)
    (hb0 : -20 ≤ bias) (hb1 : bias ≤ 20)
    (hr : ∀ i, 0 ≤ rand i ∧ rand i < 1) (ci : ℕ) (cname : String) :
    ∀ fuel i k,
      (genNodesFrom rand bias true 1 ci cname i fuel k).2
        = (genNodesFrom rand bias true (3/2) ci cname i fuel k).2
      ∧ (((genNodesFrom rand bias true 1 ci cname i fuel k).1.map
            SimNode.gpuLoad).sum
          ≤ ((genNodesFrom rand bias true (3/2) ci cname i fuel k).1.map
            SimNode.gpuLoad).sum)
      ∧ ((∃ n ∈ (genNodesFrom rand bias true 1 ci cname i fuel k).1,
            n.status = "online") →
          ((genNodesFrom rand bias true 1 ci cname i fuel k).1.map
            SimNode.gpuLoad).sum
            < ((genNodesFrom rand bias true (3/2) ci cname i fuel k).1.map
              SimNode.gpuLoad).sum) := by
  intro fuel
  induction fuel with
  | zero =>
    intro i k
    refine ⟨rfl, le_refl _, ?_⟩
    rintro ⟨n, hn, _⟩
    simp [genNodesFrom] at hn
  | succ fuel ih =>
    intro i k
    have hcmp := genNode_compare rand k bias hb0 hb1 (hr k).1 (hr k).2
      (ci * 8 + i + 1) (cname ++ toString (i + 1)) cname
    have hkeq : (genNode rand k bias true 1 (ci * 8 + i + 1)
        (cname ++ toString (i + 1)) cname).2
        = (genNode rand k bias true (3/2) (ci * 8 + i + 1)
          (cname ++ toString (i + 1)) cname).2 := by
      rw [genNode_snd, genNode_snd]
    simp only [genNodesFrom, List.map_cons, List.sum_cons]
    rw [← hkeq]
    obtain ⟨ihsnd, ihle, ihlt⟩ := ih (i + 1)
      ((genNode rand k bias true 1 (ci * 8 + i + 1)
        (cname ++ toString (i + 1)) cname).2)
    refine ⟨ihsnd, add_le_add hcmp.2.1 ihle, ?_⟩
    rintro ⟨n, hn, hon⟩
    rcases List.mem_cons.mp hn with rfl | hn
    · exact add_lt_add_of_lt_of_le (hcmp.2.2 hon) ihle
    · exact add_lt_add_of_le_of_lt hcmp.2.1 (ihlt ⟨n, hn, hon⟩)

/-- The spike state installed by the manual trigger, as read back through
getClusterState: status spike, multiplier 1.5, region global. -/
def spikedClusterState : ClusterState :=
  getClusterState (simulateLoadSpike (initMachine 0))

/-- Under the initial normal state every cluster is spike-affected (the
region is the global sentinel), with multiplier 1. -/
lemma isAffectedFor_initial (ci : ℕ) :
    isAffectedFor initialClusterState ci = true := by
  simp [isAffectedFor, initialClusterState]

/-- Under the manually triggered spike every cluster is spike-affected. -/
lemma isAffectedFor_spiked (ci : ℕ) :
    isAffectedFor spikedClusterState ci = true := by
  simp [isAffectedFor, spikedClusterState, getClusterState, simulateLoadSpike,
    initMachine]

/-- Cluster-level spike comparison with shared draws. -/
lemma generateCluster_compare (rand : ℕ → ℚ) (now : String)
    (hr : ∀ i, 0 ≤ rand i ∧ rand i < 1) (ci k : ℕ) :
    (generateCluster rand now initialClusterState ci k).2
      = (generateCluster rand now spikedClusterState ci k).2
    ∧ (((generateCluster rand now initialClusterState ci k).1.nodes.map
        SimNode.gpuLoad).sum
        ≤ ((generateCluster rand now spikedClusterState ci k).1.nodes.map
          SimNode.gpuLoad).sum)
    ∧ ((∃ n ∈ (generateCluster rand now initialClusterState ci k).1.nodes,
          n.status = "online") →
        ((generateCluster rand now initialClusterState ci k).1.nodes.map
          SimNode.gpuLoad).sum
          < ((generateCluster rand now spikedClusterState ci k).1.nodes.map
            SimNode.gpuLoad).sum) := by
  have hsnd1 : (generateCluster rand now initialClusterState ci k).2
      = (genNodesFrom rand (profileAt ci).gpuBias
        (isAffectedFor initialClusterState ci)
        initialClusterState.loadMultiplier ci (profileAt ci).name 0 8 k).2 := rfl
  have hsnd2 : (generateCluster rand now spikedClusterState ci k).2
      = (genNodesFrom rand (profileAt ci).gpuBias
        (isAffectedFor spikedClusterState ci)
        spikedClusterState.loadMultiplier ci (profileAt ci).name 0 8 k).2 := rfl
  have hb := profileAt_bias ci
  have hcmp := genNodesFrom_compare rand (profileAt ci).gpuBias hb.1 hb.2 hr ci
    (profileAt ci).name 8 0 k
  have m1 : initialClusterState.loadMultiplier = 1 := rfl
  have m2 : spikedClusterState.loadMultiplier = 3/2 := rfl
  rw [hsnd1, hsnd2, generateCluster_nodes, generateCluster_nodes,
    isAffectedFor_initial, isAffectedFor_spiked, m1, m2]
  exact hcmp

/-- Fleet-loop spike comparison with shared draws. -/
lemma genClusters_compare (rand : ℕ → ℚ) (now : String)
    (hr : ∀ i, 0 ≤ rand i ∧ rand i < 1) :
    ∀ fuel i k,
      (((genClusters rand now initialClusterState i fuel k).1.map
          (fun c => (c.nodes.map SimNode.gpuLoad).sum)).sum
        ≤ ((genClusters rand now spikedClusterState i fuel k).1.map
          (fun c => (c.nodes.map SimNode.gpuLoad).sum)).sum)
      ∧ ((∃ c ∈ (genClusters rand now initialClusterState i fuel k).1,
            ∃ n ∈ c.nodes, n.status = "online") →
          ((genClusters rand now initialClusterState i fuel k).1.map
            (fun c => (c.nodes.map SimNode.gpuLoad).sum)).sum
            < ((genClusters rand now spikedClusterState i fuel k).1.map
              (fun c => (c.nodes.map SimNode.gpuLoad).sum)).sum) := by
  intro fuel
  induction fuel with
  | zero =>
    intro i k
    refine ⟨le_refl _, ?_⟩
    rintro ⟨c, hc, _⟩
    simp [genClusters] at hc
  | succ fuel ih =>
    intro i k
    have hc := generateCluster_compare rand now hr i k
    simp only [genClusters, List.map_cons, List.sum_cons]
    rw [← hc.1]
    obtain ⟨ihle, ihlt⟩ := ih (i + 1)
      ((generateCluster rand now initialClusterState i k).2)
    refine ⟨add_le_add hc.2.1 ihle, ?_⟩
    rintro ⟨c, hcmem, n, hn, hon⟩
    rcases List.mem_cons.mp hcmem with rfl | hcmem
    · exact add_lt_add_of_lt_of_le (hc.2.2 ⟨n, hn, hon⟩) ihle
    · exact add_lt_add_of_le_of_lt hc.2.1 (ihlt ⟨c, hcmem, n, hn, hon⟩)

/-- All nodes of a fleet snapshot, flattened in order. -/
def fleetNodes (clusters : List Cluster) : List SimNode :=
  (clusters.map Cluster.nodes).flatten

/-- The mean gpuLoad over all nodes of a fleet snapshot. -/
def meanFleetGpu (clusters : List Cluster) : ℚ :=
  ((fleetNodes clusters).map SimNode.gpuLoad).sum
    / ((fleetNodes clusters).length : ℚ)

/-- The fleet gpuLoad sum decomposes as the sum of per-cluster sums. -/
lemma fleetNodes_gpu_sum (f : List Cluster) :
    ((fleetNodes f).map SimNode.gpuLoad).sum
      = (f.map (fun c => (c.nodes.map SimNode.gpuLoad).sum)).sum := by
  induction f with
  | nil => rfl
  | cons c f ih =>
    simp only [fleetNodes, List.map_cons, List.flatten_cons, List.map_append,
      List.sum_append, List.sum_cons] at *
    rw [ih]

/-- A fleet in which every cluster carries 8 nodes has 8 nodes per cluster
in the flattened view. -/
lemma fleetNodes_length (f : List Cluster) (h8 : ∀ c ∈ f, c.nodes.length = 8) :
    (fleetNodes f).length = 8 * f.length := by
  induction f with
  | nil => rfl
  | cons c f ih =>
    have hc := h8 c (List.mem_cons_self c f)
    have ihf := ih (fun x hx => h8 x (List.mem_cons_of_mem c hx))
    simp only [fleetNodes, List.map_cons, List.flatten_cons, List.length_append,
      List.length_cons] at *
    rw [hc, ihf]
    ring

/-- C8: with the same draw stream, a synthesis call under the manually
triggered spike state (status spike, region global, multiplier 1.5) yields
a mean fleet gpuLoad at least as large as a synthesis call under the normal
state (multiplier 1.0), and strictly larger whenever at least one node of
the normal-state run is online (the offline pattern is identical in the two
runs, since it is decided by the shared draws). -/
theorem spike_raises_mean_load (rand : ℕ → ℚ) (now : String)
    (hr : ∀ i, 0 ≤ rand i ∧ rand i < 1) :
    meanFleetGpu (generateTelemetry rand now initialClusterState)
      ≤ meanFleetGpu (generateTelemetry rand now spikedClusterState)
    ∧ ((∃ c ∈ generateTelemetry rand now initialClusterState,
          ∃ n ∈ c.nodes, n.status = "online") →
        meanFleetGpu (generateTelemetry rand now initialClusterState)
          < meanFleetGpu (generateTelemetry rand now spikedClusterState)) := by
  have hcmp := genClusters_compare rand now hr 8 0 0
  have hl1 : (fleetNodes (generateTelemetry rand now initialClusterState)).length
      = 64 := by
    rw [fleetNodes_length _ (generateTelemetry_nodes_length rand now _),
      generateTelemetry_length]
  have hl2 : (fleetNodes (generateTelemetry rand now spikedClusterState)).length
      = 64 := by
    rw [fleetNodes_length _ (generateTelemetry_nodes_length rand now _),
      generateTelemetry_length]
  have hs1 := fleetNodes_gpu_sum (generateTelemetry rand now initialClusterState)
  have hs2 := fleetNodes_gpu_sum (generateTelemetry rand now spikedClusterState)
  constructor
  · simp only [meanFleetGpu]
    rw [hl1, hl2, hs1, hs2]
    push_cast
    exact div_le_div_of_nonneg_right hcmp.1 (by norm_num)
  · intro hex
    simp only [meanFleetGpu]
    rw [hl1, hl2, hs1, hs2]
    push_cast
    exact div_lt_div_of_pos_right (hcmp.2 hex) (by norm_num)

/-- Under the constant one-half draw stream every node of the fleet is
online. -/
lemma generateTelemetry_half_online (now : String) (state : ClusterState) :
    ∀ c ∈ generateTelemetry (fun _ => (1 : ℚ)/2) now state, ∀ n ∈ c.nodes,
      n.status = "online" :=
  generateTelemetry_forall _ now state
    (fun c => ∀ n ∈ c.nodes, n.status = "online")
    (fun i k =>
      generateCluster_nodes_forall _ (fun n => n.status = "online")
        (fun k2 bias isAff mult nodeId label cname =>
          genNode_half_online k2 bias isAff mult nodeId label cname)
        now state i k)

/-- Witness for C8 at the constant one-half draw stream, where every node
is online, so the mean load increase is strict. -/
theorem spike_raises_mean_load_witness :
    meanFleetGpu (generateTelemetry (fun _ => (1 : ℚ)/2) ("00:00:00")
        initialClusterState)
      ≤ meanFleetGpu (generateTelemetry (fun _ => (1 : ℚ)/2) ("00:00:00")
        spikedClusterState)
    ∧ meanFleetGpu (generateTelemetry (fun _ => (1 : ℚ)/2) ("00:00:00")
        initialClusterState)
      < meanFleetGpu (generateTelemetry (fun _ => (1 : ℚ)/2) ("00:00:00")
        spikedClusterState) := by
  have h := spike_raises_mean_load (fun _ => (1 : ℚ)/2) ("00:00:00")
    (fun i => ⟨by norm_num, by norm_num⟩)
  have hcmem : ((generateTelemetry (fun _ => (1 : ℚ)/2) ("00:00:00")
      initialClusterState).get? 0).getD emptyCluster
        ∈ generateTelemetry (fun _ => (1 : ℚ)/2) ("00:00:00") initialClusterState :=
    getD_get?_mem _ 0 _ (by rw [generateTelemetry_length]; norm_num)
  have hnlen : (((generateTelemetry (fun _ => (1 : ℚ)/2) ("00:00:00")
      initialClusterState).get? 0).getD emptyCluster).nodes.length = 8 :=
    generateTelemetry_nodes_length _ _ _ _ hcmem
  have hnmem : ((((generateTelemetry (fun _ => (1 : ℚ)/2) ("00:00:00")
      initialClusterState).get? 0).getD emptyCluster).nodes.get? 0).getD offNode
        ∈ (((generateTelemetry (fun _ => (1 : ℚ)/2) ("00:00:00")
          initialClusterState).get? 0).getD emptyCluster).nodes :=
    getD_get?_mem _ 0 _ (by rw [hnlen]; norm_num)
  exact ⟨h.1, h.2 ⟨_, hcmem, _, hnmem,
    generateTelemetry_half_online ("00:00:00") initialClusterState _ hcmem _ hnmem⟩⟩

end CodeRed
